import Mathlib

/-!
A shallow embedding of `fountain.py` (wildwinter/fountain-py): the screenplay
markup parser.  Python strings are modelled as Lean `String`s manipulated
through their character lists; Python exceptions (`IndexError`, `KeyError`,
`ValueError`) are modelled with `Except PyErr`.  Python's `dict` is modelled
as an insertion-ordered association list whose update-in-place keeps the
original position of an overwritten key.  Element lists inside scenes are
shared references in Python; here scenes store arena indices into the flat
element list, so that the parser's in-place mutations (dual-dialogue
back-patching, dialogue continuation joins) are visible through both views.
-/

namespace FountainPy

/-! ## Python string primitives -/

/-- The characters `str.isspace` / default `str.strip` treat as whitespace
(ASCII subset; the repository's inputs are ASCII text). -/
def pyIsSpaceChar (c : Char) : Bool :=
  c == ' ' || c == '\t' || c == '\n' || c == '\r' || c == '\x0b' || c == '\x0c'

/-- `s.lstrip()` -/
def pyLStrip (s : String) : String := String.mk (s.data.dropWhile pyIsSpaceChar)

/-- `s.rstrip()` -/
def pyRStrip (s : String) : String :=
  String.mk ((s.data.reverse.dropWhile pyIsSpaceChar).reverse)

/-- `s.strip()` -/
def pyStrip (s : String) : String := pyRStrip (pyLStrip s)

/-- `s.lstrip(cs)` for an explicit character set -/
def pyLStripSet (cs : List Char) (s : String) : String :=
  String.mk (s.data.dropWhile (fun c => cs.contains c))

/-- `s.rstrip(cs)` for an explicit character set -/
def pyRStripSet (cs : List Char) (s : String) : String :=
  String.mk ((s.data.reverse.dropWhile (fun c => cs.contains c)).reverse)

/-- `s.strip(cs)` for an explicit character set -/
def pyStripSet (cs : List Char) (s : String) : String :=
  pyRStripSet cs (pyLStripSet cs s)

/-- `s.isspace()`: nonempty and all whitespace -/
def pyIsSpaceStr (s : String) : Bool :=
  !s.data.isEmpty && s.data.all pyIsSpaceChar

/-- `s.upper()` (ASCII) -/
def pyUpper (s : String) : String := String.mk (s.data.map Char.toUpper)

/-- `s.lower()` (ASCII) -/
def pyLower (s : String) : String := String.mk (s.data.map Char.toLower)

/-- `s[:n]` -/
def pyTake (s : String) (n : Nat) : String := String.mk (s.data.take n)

/-- `s[n:]` -/
def pyDropChars (s : String) (n : Nat) : String := String.mk (s.data.drop n)

/-- `s[a:b]` (indices clamped, as in Python slicing with 0 ≤ a, b) -/
def pySlice (s : String) (a b : Nat) : String :=
  String.mk ((s.data.take b).drop a)

/-- `pre` is a prefix of `s` (`s.startswith(pre)`) -/
def pyStartsWith (s pre : String) : Bool := pre.data.isPrefixOf s.data

/-- `s.endswith(suf)` -/
def pyEndsWith (s suf : String) : Bool :=
  suf.data.reverse.isPrefixOf s.data.reverse

/-- Characters that terminate a line for `str.splitlines`. -/
def pyLineBoundary (c : Char) : Bool :=
  c == '\n' || c == '\r' || c == '\x0b' || c == '\x0c' ||
  c == '\x1c' || c == '\x1d' || c == '\x1e' || c == '\x85' ||
  c == '\u2028' || c == '\u2029'

/-- Worker for `str.splitlines`: `acc` holds the current line reversed. -/
def pySplitlinesAux : List Char → List Char → List String
  | [], acc => if acc.isEmpty then [] else [String.mk acc.reverse]
  | '\r' :: '\n' :: cs, acc => String.mk acc.reverse :: pySplitlinesAux cs []
  | c :: cs, acc =>
    if pyLineBoundary c then String.mk acc.reverse :: pySplitlinesAux cs []
    else pySplitlinesAux cs (c :: acc)

/-- `s.splitlines()` -/
def pySplitlines (s : String) : List String := pySplitlinesAux s.data []

/-- Worker for `str.replace`.  Every match consumes at least one character
(`pat` is nonempty at every call site: `"\r"`, `"/*"`, `"*/"`, `"\\"`);
the `fuel` argument, initialised to the list length, only makes that
termination structural so the definition reduces in the kernel. -/
def pyReplaceAux (pat repl : List Char) : Nat → List Char → List Char
  | _, [] => []
  | 0, l => l
  | fuel + 1, c :: cs =>
    if pat.isPrefixOf (c :: cs) then
      repl ++ pyReplaceAux pat repl fuel (cs.drop (pat.length - 1))
    else
      c :: pyReplaceAux pat repl fuel cs

/-- `s.replace(pat, repl)`; the empty pattern (unused by the source)
is treated as the identity. -/
def pyReplace (s pat repl : String) : String :=
  if pat.data.isEmpty then s
  else String.mk (pyReplaceAux pat.data repl.data s.data.length s.data)

/-- Worker for substring search, returning the index of the first match. -/
def pyFindSubAux (pat : List Char) : List Char → Nat → Option Nat
  | [], i => if pat.isEmpty then some i else none
  | c :: cs, i =>
    if pat.isPrefixOf (c :: cs) then some i else pyFindSubAux pat cs (i + 1)

/-- `s.find(pat)` as an `Option` (`none` stands for Python's `-1`). -/
def pyFindSub (s pat : String) : Option Nat := pyFindSubAux pat.data s.data 0

/-- `pat in s` -/
def pyContainsSub (s pat : String) : Bool := (pyFindSub s pat).isSome

/-- `s.split(pat, 1)` when `pat` occurs in `s` (the guarded call sites
ensure this; otherwise Python's 1-element result fails to unpack). -/
def pySplitOnceSub (s pat : String) : String × String :=
  match pyFindSub s pat with
  | some i => (pyTake s i, pyDropChars s (i + pat.data.length))
  | none => (s, "")

/-- Worker for whitespace split: `acc` holds the current word reversed. -/
def pySplitWSAux : List Char → List Char → List String
  | [], acc => if acc.isEmpty then [] else [String.mk acc.reverse]
  | c :: cs, acc =>
    if pyIsSpaceChar c then
      if acc.isEmpty then pySplitWSAux cs []
      else String.mk acc.reverse :: pySplitWSAux cs []
    else pySplitWSAux cs (c :: acc)

/-- `s.split()` (split on whitespace runs, no empty pieces) -/
def pySplitWS (s : String) : List String := pySplitWSAux s.data []

/-- `s.split(sep, 1)` for a single character, as an `Option`
(`none` when `sep` does not occur, where Python's unpacking raises). -/
def pySplitFirstChar (s : String) (sep : Char) : Option (String × String) :=
  match s.data.findIdx? (· == sep) with
  | some i => some (pyTake s i, pyDropChars s (i + 1))
  | none => none

/-- `s.find(c, start)` for a single character, as an `Option`. -/
def pyFindCharFrom (s : String) (c : Char) (start : Nat) : Option Nat :=
  match (s.data.drop start).findIdx? (· == c) with
  | some j => some (start + j)
  | none => none

/-- `s[::-1]` -/
def pyReverse (s : String) : String := String.mk s.data.reverse

/-- `'\n'.join(lines)` -/
def joinNL : List String → String
  | [] => ""
  | [x] => x
  | x :: xs => x ++ "\n" ++ joinNL xs

/-! ## Data model (`Element`, `FountainChunk`, `FountainElement`,
`FountainScene`) -/

/-- Modelled Python exceptions. -/
inductive PyErr
  | indexError
  | keyError
  | valueError
deriving DecidableEq, Repr

/-- The `Element` enum of element types. -/
inductive Element
  | EMPTY
  | BONEYARD
  | PAGE_BREAK
  | SYNOPSIS
  | COMMENT
  | SECTION_HEADING
  | SCENE_HEADING
  | TRANSITION
  | ACTION
  | CHARACTER
  | PARENTHETICAL
  | DIALOGUE
deriving DecidableEq, Repr

/-- `COMMON_TRANSITIONS` (a set in Python; only membership is used). -/
def COMMON_TRANSITIONS : List String :=
  ["FADE OUT.", "CUT TO BLACK.", "FADE TO BLACK."]

/-- `CHARACTER_ALLOWABLE` -/
def CHARACTER_ALLOWABLE : String :=
  "ABCDEFGHIJKLMNOPQRSTUVWXYZ _ÄÖÜ0123456789"

/-- `strip_slashes` -/
def strip_slashes (text : String) : String := pyReplace text "\\" ""

/-- `FountainChunk` (an inline style run). -/
structure FountainChunk where
  bold : Bool := false
  italic : Bool := false
  underline : Bool := false
  text : String := ""
deriving DecidableEq, Repr

/-- `FountainElement` with the constructor's default field values. -/
structure FountainElement where
  element_type : Element
  element_text : String := ""
  section_depth : Nat := 0
  scene_number : String := ""
  scene_abbreviation : String := "."
  is_centered : Bool := false
  is_dual_dialogue : Bool := false
  original_line : Nat := 0
  original_content : String := ""
deriving DecidableEq, Repr

/-- `FountainElement.is_empty` -/
def FountainElement.is_empty (e : FountainElement) : Bool :=
  e.element_type == Element.EMPTY
    || e.element_type == Element.PAGE_BREAK
    || e.element_type == Element.BONEYARD

/-- `FountainScene`: `elements` is a list of shared references in Python;
here it stores indices into the flat element arena. -/
structure FountainScene where
  header_text : String
  element_ids : List Nat
deriving DecidableEq, Repr

/-- `FountainScene.__init__`, which strips backslashes from the header. -/
def mkScene (scene_header_text : String) : FountainScene :=
  { header_text := strip_slashes scene_header_text, element_ids := [] }

/-- `FountainScene.is_empty`, reading the elements through the arena.
Indices are always in range; a missing index defaults to an `EMPTY`
element. -/
def scene_is_empty (arena : List FountainElement) (sc : FountainScene) : Bool :=
  sc.element_ids.all
    (fun i => ((arena.get? i).getD { element_type := Element.EMPTY }).is_empty)

/-! ## Inline-style splitter (`FountainElement.split_to_chunks`) -/

/-- Scan state of `split_to_chunks`.  In the source, `chunks` always ends
with the live `chunk` object; here `done` is everything before it. -/
structure ChunkState where
  done : List FountainChunk
  chunk : FountainChunk
  is_escaped : Bool
  stars : String
deriving DecidableEq, Repr

/-- `chunk.text += c` -/
def pushText (ch : FountainChunk) (c : Char) : FountainChunk :=
  { ch with text := ch.text.push c }

/-- The pending-star-run resolution at the head of the loop body: a new
chunk is `chunk.copy()` with flags flipped by the run length, appended to
`chunks`, and the run is cleared. -/
def flushStars (st : ChunkState) : ChunkState :=
  let nc0 : FountainChunk :=
    { bold := st.chunk.bold, italic := st.chunk.italic,
      underline := st.chunk.underline, text := "" }
  let nc :=
    if st.stars = "***" then
      { nc0 with bold := !st.chunk.bold, italic := !st.chunk.italic }
    else if st.stars = "**" then { nc0 with bold := !st.chunk.bold }
    else if st.stars = "*" then { nc0 with italic := !st.chunk.italic }
    else nc0
  { st with done := st.done ++ [st.chunk], chunk := nc, stars := "" }

/-- One iteration of the `for c in self.element_text` loop. -/
def chunkStep (st : ChunkState) (c : Char) : ChunkState :=
  if st.is_escaped then
    { st with is_escaped := false, chunk := pushText st.chunk c }
  else
    let st1 :=
      if st.stars ≠ "" ∧ st.stars.data.head? ≠ some c then flushStars st else st
    if c = '\\' then { st1 with is_escaped := true }
    else if c = '_' then
      let nc : FountainChunk :=
        { bold := st1.chunk.bold, italic := st1.chunk.italic,
          underline := !st1.chunk.underline, text := "" }
      { st1 with done := st1.done ++ [st1.chunk], chunk := nc }
    else if c = '*' then { st1 with stars := st1.stars.push c }
    else { st1 with chunk := pushText st1.chunk c }

/-- Initial scan state: `chunks = [FountainChunk()]`. -/
def chunkInit : ChunkState :=
  { done := [], chunk := {}, is_escaped := false, stars := "" }

/-- `FountainElement.split_to_chunks` -/
def FountainElement.split_to_chunks (e : FountainElement) : List FountainChunk :=
  let st := e.element_text.data.foldl chunkStep chunkInit
  st.done ++ [st.chunk]

/-! ## Head parser (`Fountain._parse_head`) -/

/-- `d[k]` lookup.  `self.metadata` (a Python dict from key to list of
value lines) is an insertion-ordered association list with unique keys. -/
def dict_get : List (String × List String) → String → Option (List String)
  | [], _ => none
  | p :: md, k => if p.1 == k then some p.2 else dict_get md k

/-- `d[k] = v`: overwriting an existing key keeps its position, a new key
is appended at the end (Python dict insertion order). -/
def dict_set : List (String × List String) → String → List String →
    List (String × List String)
  | [], k, v => [(k, v)]
  | p :: md, k, v =>
    if p.1 == k then (p.1, v) :: md else p :: dict_set md k v

/-- The loop of `Fountain._parse_head`, with the `open_key` state explicit.
`line[0]` on an empty line and an absent dict key raise; so does unpacking
`line.split(':', 1)` when the line has no colon. -/
def parse_head_aux (md : List (String × List String))
    (open_key : Option String) :
    List String → Except PyErr (List (String × List String))
  | [] => pure md
  | l :: rest =>
    let line := pyRStrip l
    match line.data.head? with
    | none => throw PyErr.indexError
    | some c0 =>
      if pyIsSpaceChar c0 then
        match open_key with
        | none => throw PyErr.keyError
        | some k =>
          match dict_get md k with
          | none => throw PyErr.keyError
          | some vs =>
            parse_head_aux (dict_set md k (vs ++ [pyStrip line])) open_key rest
      else if line.data.getLast? == some ':' then
        let k := pyLower (pySlice line 0 (line.data.length - 1))
        parse_head_aux (dict_set md k []) (some k) rest
      else
        match pySplitFirstChar line ':' with
        | none => throw PyErr.valueError
        | some (key, value) =>
          parse_head_aux (dict_set md (pyLower (pyStrip key)) [pyStrip value])
            open_key rest

/-! ## Body parser (`Fountain._parse_body`) -/

/-- The mutable state of the `_parse_body` loop.  `curr_scene` is a shared
reference to the last entry of `self.scenes` throughout the loop, so it is
not stored separately. -/
structure BodyState where
  elements : List FountainElement
  scenes : List FountainScene
  is_comment_block : Bool
  is_inside_dialogue_block : Bool
  newlines_before : Nat
  comment_text : List String
deriving DecidableEq, Repr

/-- `curr_scene.append(element)`: the current scene is the last of
`self.scenes`, which is never empty while the body loop runs. -/
def update_last_scene (scs : List FountainScene) (idx : Nat) :
    List FountainScene :=
  match scs.getLast? with
  | none => scs
  | some last =>
    scs.dropLast ++ [{ last with element_ids := last.element_ids ++ [idx] }]

/-- `self.elements.append(e); curr_scene.append(self.elements[-1])` -/
def append_elem (st : BodyState) (e : FountainElement) : BodyState :=
  { st with
    elements := st.elements ++ [e],
    scenes := update_last_scene st.scenes st.elements.length }

/-- `Fountain._add_scene`: pop the current scene if it is entirely empty,
then open a new scene holding the heading element.  `arena` is
`self.elements` (used by the scene's `is_empty` check); `self.scenes` is
never empty at a call site (Python would raise on `self.scenes[-1]`). -/
def add_scene (arena : List FountainElement) (scenes : List FountainScene)
    (header_text : String) (idx : Nat) : List FountainScene :=
  let scenes1 :=
    match scenes.getLast? with
    | some last => if scene_is_empty arena last then scenes.dropLast else scenes
    | none => scenes
  scenes1 ++ [{ mkScene header_text with element_ids := [idx] }]

/-- The retroactive dual-dialogue back-patch, walking `reversed(elements)`
and flipping the first `CHARACTER` found; worker over the reversed list. -/
def mark_dual_rev : List FountainElement → List FountainElement
  | [] => []
  | e :: rest =>
    if e.element_type == Element.CHARACTER then
      { e with is_dual_dialogue := true } :: rest
    else
      e :: mark_dual_rev rest

/-- `for element in reversed(self.elements): if CHARACTER: mark; break` -/
def mark_last_character_dual (es : List FountainElement) :
    List FountainElement :=
  (mark_dual_rev es.reverse).reverse

/-- `self.elements[-1] = f(self.elements[-1])` (call sites guarantee a
nonempty list; Python indexes `[-1]`). -/
def modify_last (f : FountainElement → FountainElement)
    (es : List FountainElement) : List FountainElement :=
  match es.getLast? with
  | none => es
  | some lastE => es.dropLast ++ [f lastE]

/-! Branch conditions of the per-line classifier, in source order.  Each is
a pure function of the data the corresponding `if` reads.  `line` is the
left-stripped line and `fs` its fully stripped form, as in the source. -/

/-- Branch 1: blank line outside a comment block. -/
def cond_blank (st : BodyState) (line : String) : Bool :=
  (line == "" || pyIsSpaceStr line) && !st.is_comment_block

/-- Branch 2: `line.startswith('/*')`. -/
def cond_boneyard_open (line : String) : Bool := pyStartsWith line "/*"

/-- Branch 3: `line.rstrip().endswith('*/')`. -/
def cond_boneyard_close (line : String) : Bool :=
  pyEndsWith (pyRStrip line) "*/"

/-- Branch 5: `line.startswith('===')`. -/
def cond_page_break (line : String) : Bool := pyStartsWith line "==="

/-- Branch 6: nonempty stripped line starting with `=`. -/
def cond_synopsis (fs : String) : Bool := fs.data.head? == some '='

/-- Branch 7: bracketed comment after at least one blank line. -/
def cond_comment (st : BodyState) (fs : String) : Bool :=
  decide (st.newlines_before > 0) && pyStartsWith fs "[[" && pyEndsWith fs "]]"

/-- Branch 8: stripped line starting with `#`. -/
def cond_section (fs : String) : Bool := fs.data.head? == some '#'

/-- Branch 9: forced scene heading `.X` (second char not a dot). -/
def cond_forced_scene (line : String) : Bool :=
  decide (line.data.length > 1) && (line.data.head? == some '.')
    && !(line.data.get? 1 == some '.')

/-- Branch 10: forced action `!X`. -/
def cond_forced_action (line : String) : Bool :=
  decide (line.data.length > 1) && (line.data.head? == some '!')

/-- Branch 11: natural scene heading by INT/EXT-style token. -/
def cond_scene_tok (line : String) : Bool :=
  (["INT ", "INT.", "EXT ", "EXT.", "EST ", "EST.", "I/E ", "I/E."].contains
      (pyUpper (pyTake line 4)))
    || (["INT/EXT ", "INT/EXT."].contains (pyUpper (pyTake line 8)))
    || (["INT./EXT ", "INT./EXT."].contains (pyUpper (pyTake line 9)))

/-- Branch 12: `full_strip.endswith(' TO:')`. -/
def cond_tr_to (fs : String) : Bool := pyEndsWith fs " TO:"

/-- Branch 13: one of the fixed common transitions. -/
def cond_tr_common (fs : String) : Bool := COMMON_TRANSITIONS.contains fs

/-- Branch 14: stripped line starting with `>`. -/
def cond_angle (fs : String) : Bool := fs.data.head? == some '>'

/-- Branch 15: character cue (blank line before, nonempty next raw line,
no bracket-like first char, allowable characters or forced `@`). -/
def cond_character (script_body : List String) (st : BodyState)
    (linenum : Nat) (line fs : String) : Bool :=
  decide (st.newlines_before > 0)
    && decide (linenum + 1 < script_body.length)
    && !(((script_body.get? (linenum + 1)).getD "") == "")
    && !((['[', ']', ',', '(', ')'] : List Char).contains
          ((line.data.head?).getD ' '))
    && (fs.data.all (fun c => CHARACTER_ALLOWABLE.data.contains c)
        || fs.data.head? == some '@')

/-- The scene-number start index: `len(fs) - fs[::-1].find('#', 1) - 1`
(`none` stands for Python's `-1`, giving `len(fs)`). -/
def scene_number_start (fs : String) : Nat :=
  match pyFindCharFrom (pyReverse fs) '#' 1 with
  | some j => fs.data.length - j - 1
  | none => fs.data.length

/-! The body of each classifier branch, one definition per `if` block of
the source loop, taking exactly the data the block reads.  `line` is the
left-stripped line and `fs` the fully stripped line throughout. -/

/-- Branch 1 body: emit Empty, leave dialogue mode, count the blank. -/
def branch_blank (st : BodyState) : BodyState :=
  let st1 := append_elem st { element_type := Element.EMPTY }
  { st1 with
    is_inside_dialogue_block := false,
    newlines_before := st.newlines_before + 1 }

/-- Branch 2 body: a `/*` line either closes on the same line (emit a
Boneyard now) or opens comment-block mode, accumulating an empty line in
place of the text after `/*`. -/
def branch_boneyard_open (st : BodyState) (linenum : Nat)
    (line : String) : BodyState :=
  let lineR := pyRStrip line
  if pyEndsWith lineR "*/" then
    let text := pyReplace (pyReplace lineR "/*" "") "*/" ""
    let e : FountainElement :=
      { element_type := Element.BONEYARD, element_text := text,
        original_line := linenum, original_content := lineR }
    let st1 := append_elem st e
    { st1 with is_comment_block := false, newlines_before := 0 }
  else
    { st with is_comment_block := true,
              comment_text := st.comment_text ++ [""] }

/-- Branch 3 body: a `*/` line closes the comment block; the accumulated
lines are newline-joined into one Boneyard element. -/
def branch_boneyard_close (st : BodyState) (linenum : Nat)
    (line : String) : BodyState :=
  let text := pyReplace line "*/" ""
  let ct := st.comment_text ++ [pyStrip text]
  let e : FountainElement :=
    { element_type := Element.BONEYARD, element_text := joinNL ct,
      original_line := linenum, original_content := line }
  let st1 := append_elem { st with comment_text := ct } e
  { st1 with is_comment_block := false, comment_text := [],
             newlines_before := 0 }

/-- Branch 4 body: inside a comment block, accumulate the line. -/
def branch_comment_acc (st : BodyState) (line : String) : BodyState :=
  { st with comment_text := st.comment_text ++ [line] }

/-- Branch 5 body: `===` page break. -/
def branch_page_break (st : BodyState) (linenum : Nat)
    (line : String) : BodyState :=
  let e : FountainElement :=
    { element_type := Element.PAGE_BREAK, element_text := line,
      original_line := linenum, original_content := line }
  let st1 := append_elem st e
  { st1 with newlines_before := 0 }

/-- Branch 6 body: `=` synopsis (the blank-run counter is not reset). -/
def branch_synopsis (st : BodyState) (linenum : Nat)
    (line fs : String) : BodyState :=
  append_elem st
    { element_type := Element.SYNOPSIS,
      element_text := pyStrip (pyDropChars fs 1),
      original_line := linenum, original_content := line }

/-- Branch 7 body: `[[...]]` comment (the blank-run counter is not
reset). -/
def branch_comment (st : BodyState) (linenum : Nat)
    (line fs : String) : BodyState :=
  append_elem st
    { element_type := Element.COMMENT,
      element_text := pyStripSet ['[', ']', ' ', '\t'] fs,
      original_line := linenum, original_content := line }

/-- Branch 8 body: `#` section heading; `full_strip.split()[0]` would
raise on an empty split (unreachable: the line is non-blank). -/
def branch_section (st : BodyState) (linenum : Nat)
    (line fs : String) : Except PyErr BodyState :=
  match pySplitWS fs with
  | [] => throw PyErr.indexError
  | tok :: _ =>
    let depth := tok.data.count '#'
    let e : FountainElement :=
      { element_type := Element.SECTION_HEADING,
        element_text := pyStrip (pyDropChars fs depth),
        section_depth := depth,
        original_line := linenum, original_content := line }
    let st1 := append_elem st e
    pure { st1 with newlines_before := 0 }

/-- Branch 9 body: forced (leading-dot) scene heading, with optional
trailing `#...#` scene number; opens a new scene. -/
def branch_forced_scene (st : BodyState) (linenum : Nat)
    (line fs : String) : BodyState :=
  let e : FountainElement :=
    if fs.data.getLast? == some '#' ∧ fs.data.count '#' > 1 then
      let sns := scene_number_start fs
      { element_type := Element.SCENE_HEADING,
        element_text := pyStrip (pySlice fs 1 sns),
        scene_number := pyStrip (pyStripSet ['#'] (pyDropChars fs sns)),
        original_line := linenum, original_content := line }
    else
      { element_type := Element.SCENE_HEADING,
        element_text := pyStrip (pyDropChars fs 1),
        original_line := linenum, original_content := line }
  let els := st.elements ++ [e]
  { st with
    elements := els,
    scenes := add_scene els st.scenes e.element_text st.elements.length,
    newlines_before := 0 }

/-- Branch 10 body: `!` forced action (the blank-run counter is not
reset). -/
def branch_forced_action (st : BodyState) (linenum : Nat)
    (line fs : String) : BodyState :=
  append_elem st
    { element_type := Element.ACTION,
      element_text := pyStrip (pyDropChars fs 1),
      original_line := linenum, original_content := line }

/-- Branch 11 body: natural INT/EXT-style scene heading.
`line.split()[1]` raises `IndexError` when the line has a single token. -/
def branch_scene_tok (st : BodyState) (linenum : Nat)
    (line fs : String) : Except PyErr BodyState :=
  match pySplitWS line with
  | [] => throw PyErr.indexError
  | [_] => throw PyErr.indexError
  | w0 :: w1 :: _ =>
    let scene_name_start := (pyFindSub line w1).getD 0
    let e : FountainElement :=
      if fs.data.getLast? == some '#' ∧ fs.data.count '#' > 1 then
        let sns := scene_number_start fs
        { element_type := Element.SCENE_HEADING,
          element_text :=
            w0 ++ " " ++ pyStrip (pySlice fs scene_name_start sns),
          scene_number := pyStrip (pyStripSet ['#'] (pyDropChars fs sns)),
          scene_abbreviation := w0,
          original_line := linenum, original_content := line }
      else
        { element_type := Element.SCENE_HEADING,
          element_text :=
            w0 ++ " " ++ pyStrip (pyDropChars fs scene_name_start),
          scene_abbreviation := w0,
          original_line := linenum, original_content := line }
    let els := st.elements ++ [e]
    pure { st with
           elements := els,
           scenes := add_scene els st.scenes e.element_text st.elements.length,
           newlines_before := 0 }

/-- Branches 12/13 body (identical in the source): transition. -/
def branch_transition (st : BodyState) (linenum : Nat)
    (line fs : String) : BodyState :=
  let e : FountainElement :=
    { element_type := Element.TRANSITION, element_text := fs,
      original_line := linenum, original_content := line }
  let st1 := append_elem st e
  { st1 with newlines_before := 0 }

/-- Branch 14 body: `>` is a centered action when the line also ends in
`<`, otherwise a transition. -/
def branch_angle (st : BodyState) (linenum : Nat)
    (line fs : String) : BodyState :=
  if fs.data.length > 1 ∧ fs.data.getLast? == some '<' then
    let e : FountainElement :=
      { element_type := Element.ACTION,
        element_text := pyStrip (pySlice fs 1 (fs.data.length - 1)),
        is_centered := true,
        original_line := linenum, original_content := line }
    let st1 := append_elem st e
    { st1 with newlines_before := 0 }
  else
    let e : FountainElement :=
      { element_type := Element.TRANSITION,
        element_text := pyStrip (pyDropChars fs 1),
        original_line := linenum, original_content := line }
    let st1 := append_elem st e
    { st1 with newlines_before := 0 }

/-- Branch 15 body: character cue; a trailing `^` back-patches the
nearest preceding Character and marks the new cue dual-dialogue. -/
def branch_character (st : BodyState) (linenum : Nat)
    (line fs : String) : BodyState :=
  if fs.data.getLast? == some '^' then
    let e : FountainElement :=
      { element_type := Element.CHARACTER,
        element_text := pyStrip (pyRStripSet ['^'] (pyLStripSet ['@'] fs)),
        is_dual_dialogue := true,
        original_line := linenum, original_content := line }
    let st1 :=
      append_elem { st with elements := mark_last_character_dual st.elements } e
    { st1 with is_inside_dialogue_block := true, newlines_before := 0 }
  else
    let e : FountainElement :=
      { element_type := Element.CHARACTER,
        element_text := pyLStripSet ['@'] fs,
        original_line := linenum, original_content := line }
    let st1 := append_elem st e
    { st1 with is_inside_dialogue_block := true, newlines_before := 0 }

/-- Branch 16 body: inside a dialogue block — parenthetical, or join onto
a previous Dialogue (text and `original_content` both), or start a new
Dialogue.  `self.elements[-1]` would raise on an empty list (unreachable:
dialogue mode implies a previous cue). -/
def branch_dialogue (st : BodyState) (linenum : Nat)
    (line fs : String) : Except PyErr BodyState :=
  if st.newlines_before == 0 ∧ fs.data.head? == some '(' then
    pure (append_elem st
      { element_type := Element.PARENTHETICAL, element_text := fs,
        original_line := linenum, original_content := line })
  else
    match st.elements.getLast? with
    | none => throw PyErr.indexError
    | some lastE =>
      if lastE.element_type == Element.DIALOGUE then
        let join := fun (e : FountainElement) =>
          { e with
            element_text := e.element_text ++ "\n" ++ fs,
            original_content := e.original_content ++ "\n" ++ line }
        pure { st with elements := modify_last join st.elements }
      else
        pure (append_elem st
          { element_type := Element.DIALOGUE, element_text := fs,
            original_line := linenum, original_content := line })

/-- Branch 17 (default) body: fold into the previous element's
`element_text` (its `original_content` is NOT updated), or start a new
Action. -/
def branch_default (st : BodyState) (linenum : Nat)
    (line fs : String) : BodyState :=
  if st.newlines_before == 0 ∧ st.elements.length > 0 then
    let join := fun (e : FountainElement) =>
      { e with element_text := e.element_text ++ "\n" ++ fs }
    { st with elements := modify_last join st.elements,
              newlines_before := 0 }
  else
    let st1 := append_elem st
      { element_type := Element.ACTION, element_text := fs,
        original_line := linenum, original_content := line }
    { st1 with newlines_before := 0 }

/-- One iteration of the `for linenum, line in enumerate(script_body)`
loop of `Fountain._parse_body`, dispatching on the branch conditions in
the source's exact order.  (`index` always equals `linenum` in the
source.)  The only reachable exception is `line.split()[1]` on a
scene-heading line with a single token. -/
def parse_body_step (script_body : List String) (st : BodyState)
    (linenum : Nat) (rawline : String) : Except PyErr BodyState :=
  let line := pyLStrip rawline
  let full_strip := pyStrip line
  if cond_blank st line then pure (branch_blank st)
  else if cond_boneyard_open line then
    pure (branch_boneyard_open st linenum line)
  else if cond_boneyard_close line then
    pure (branch_boneyard_close st linenum line)
  else if st.is_comment_block then pure (branch_comment_acc st line)
  else if cond_page_break line then pure (branch_page_break st linenum line)
  else if cond_synopsis full_strip then
    pure (branch_synopsis st linenum line full_strip)
  else if cond_comment st full_strip then
    pure (branch_comment st linenum line full_strip)
  else if cond_section full_strip then
    branch_section st linenum line full_strip
  else if cond_forced_scene line then
    pure (branch_forced_scene st linenum line full_strip)
  else if cond_forced_action line then
    pure (branch_forced_action st linenum line full_strip)
  else if cond_scene_tok line then
    branch_scene_tok st linenum line full_strip
  else if cond_tr_to full_strip then
    pure (branch_transition st linenum line full_strip)
  else if cond_tr_common full_strip then
    pure (branch_transition st linenum line full_strip)
  else if cond_angle full_strip then
    pure (branch_angle st linenum line full_strip)
  else if cond_character script_body st linenum line full_strip then
    pure (branch_character st linenum line full_strip)
  else if st.is_inside_dialogue_block then
    branch_dialogue st linenum line full_strip
  else
    pure (branch_default st linenum line full_strip)

/-- The initial body-parser state: `self.scenes = [FountainScene()]`. -/
def body_init : BodyState :=
  { elements := [], scenes := [mkScene ""],
    is_comment_block := false, is_inside_dialogue_block := false,
    newlines_before := 0, comment_text := [] }

/-- `Fountain._parse_body`. -/
def parse_body (script_body : List String) : Except PyErr BodyState :=
  script_body.enum.foldlM
    (fun st p => parse_body_step script_body st p.1 p.2) body_init

/-! ## Document container (`Fountain.parse`, `Fountain.__init__`) -/

/-- The parsed document: `metadata`, flat `elements`, and `scenes`. -/
structure FountainDoc where
  metadata : List (String × List String)
  elements : List FountainElement
  scenes : List FountainScene
deriving DecidableEq, Repr

/-- `Fountain.parse`. -/
def parse (contents0 : String) : Except PyErr FountainDoc := do
  let contents := pyReplace (pyStrip contents0) "\r" ""
  match (pySplitlines contents).head? with
  | none => throw PyErr.indexError
  | some firstLine =>
    let contents_has_metadata := firstLine.data.contains ':'
    let contents_has_body := pyContainsSub contents "\n\n"
    if contents_has_metadata && contents_has_body then
      let (script_head, script_body) := pySplitOnceSub contents "\n\n"
      let md ← parse_head_aux [] none (pySplitlines script_head)
      let bs ← parse_body (pySplitlines script_body)
      pure { metadata := md, elements := bs.elements, scenes := bs.scenes }
    else if contents_has_metadata then
      let md ← parse_head_aux [] none (pySplitlines contents)
      pure { metadata := md, elements := [], scenes := [] }
    else
      let bs ← parse_body (pySplitlines contents)
      pure { metadata := [], elements := bs.elements, scenes := bs.scenes }

/-- `Fountain.__init__(string=s)`: an empty string is left unparsed. -/
def fountain_init (s : String) : Except PyErr FountainDoc :=
  if s == "" then pure { metadata := [], elements := [], scenes := [] }
  else parse s

/-! ## Derived views used by the claims -/

/-- The texts of the Boneyard elements of a document, in order. -/
def boneyard_texts (d : FountainDoc) : List String :=
  (d.elements.filter (fun e => e.element_type == Element.BONEYARD)).map
    (fun e => e.element_text)

/-- The body-line list of an input, mirroring the head/body decision of
`Fountain.parse`. -/
def body_lines (input : String) : List String :=
  let contents := pyReplace (pyStrip input) "\r" ""
  match (pySplitlines contents).head? with
  | none => []
  | some firstLine =>
    if firstLine.data.contains ':' && pyContainsSub contents "\n\n" then
      pySplitlines (pySplitOnceSub contents "\n\n").2
    else if firstLine.data.contains ':' then []
    else pySplitlines contents

/-- Following the spec's words for the round-trip claim: concatenating the
`original_content` of all elements in source order, restoring one line
break between elements, reproduces the body lines of the input up to
leading/trailing whitespace on each line. -/
def roundtrip_ok (input : String) : Bool :=
  match fountain_init input with
  | Except.error _ => false
  | Except.ok d =>
    (pySplitlines (joinNL (d.elements.map
        (fun e => e.original_content)))).map pyStrip
      == (body_lines input).map pyStrip

/-! ## Helper lemmas -/

/-- `modify_last` keeps every element's `original_content` when the update
function does. -/
theorem modify_last_map_original_content (f : FountainElement → FountainElement)
    (hf : ∀ e, (f e).original_content = e.original_content)
    (es : List FountainElement) :
    (modify_last f es).map (fun e => e.original_content)
      = es.map (fun e => e.original_content) := by
  unfold modify_last
  cases hg : es.getLast? with
  | none => rfl
  | some lastE =>
    conv_rhs => rw [← List.dropLast_append_getLast? lastE hg]
    simp [hf]

/-- `update_last_scene` touches only the last scene: the other scenes and
the total number of scenes are unchanged. -/
theorem update_last_scene_dropLast (scs : List FountainScene) (idx : Nat) :
    (update_last_scene scs idx).dropLast = scs.dropLast
      ∧ (update_last_scene scs idx).length = scs.length := by
  unfold update_last_scene
  cases hg : scs.getLast? with
  | none => exact ⟨rfl, rfl⟩
  | some lastE =>
    constructor
    · simp
    · conv_rhs => rw [← List.dropLast_append_getLast? lastE hg]
      simp

/-- The back-patch walk over the reversed element list marks exactly the
first `CHARACTER` it meets. -/
theorem mark_dual_rev_append (l1 : List FountainElement)
    (ch : FountainElement) (l2 : List FountainElement)
    (h1 : ∀ e ∈ l1, ¬ e.element_type = Element.CHARACTER)
    (hch : ch.element_type = Element.CHARACTER) :
    mark_dual_rev (l1 ++ ch :: l2)
      = l1 ++ ({ ch with is_dual_dialogue := true } :: l2) := by
  induction l1 with
  | nil => simp [mark_dual_rev, hch]
  | cons e es ih =>
    have he : ¬ e.element_type = Element.CHARACTER := h1 e (by simp)
    simp only [List.cons_append, mark_dual_rev, beq_iff_eq, he, if_false,
      List.append_eq]
    rw [ih (fun x hx => h1 x (by simp [hx]))]

/-- `mark_last_character_dual` flips `is_dual_dialogue` on the nearest
preceding `CHARACTER` element and nothing else. -/
theorem mark_last_character_dual_eq (pre : List FountainElement)
    (ch : FountainElement) (post : List FountainElement)
    (hch : ch.element_type = Element.CHARACTER)
    (hpost : ∀ e ∈ post, ¬ e.element_type = Element.CHARACTER) :
    mark_last_character_dual (pre ++ ch :: post)
      = pre ++ ({ ch with is_dual_dialogue := true } :: post) := by
  unfold mark_last_character_dual
  have hrev : (pre ++ ch :: post).reverse
      = post.reverse ++ ch :: pre.reverse := by
    simp
  rw [hrev, mark_dual_rev_append post.reverse ch pre.reverse
        (fun e he => hpost e (List.mem_reverse.mp he)) hch]
  simp

/-! Head-block line classification, following the spec's description of
the head grammar (§4.2): an opener (`Key:`), a `Key: value` line, or an
indented continuation line. -/

/-- A continuation line: nonempty after rstrip, first character
whitespace. -/
def head_cont (l : String) : Bool :=
  match (pyRStrip l).data.head? with
  | some c => pyIsSpaceChar c
  | none => false

/-- An opener line `Key:`: no leading whitespace, last character `:`. -/
def head_opener (l : String) : Bool :=
  match (pyRStrip l).data.head? with
  | some c => !pyIsSpaceChar c && ((pyRStrip l).data.getLast? == some ':')
  | none => false

/-- A `Key: value` line: no leading whitespace, not ending in `:`, with a
colon somewhere. -/
def head_kv (l : String) : Bool :=
  match (pyRStrip l).data.head? with
  | some c => !pyIsSpaceChar c && !((pyRStrip l).data.getLast? == some ':')
      && ((pyRStrip l).data.findIdx? (fun x => x == ':')).isSome
  | none => false

/-- A well-formed head block (spec §4.2): every line is an opener, a
`Key: value` line, or a continuation line occurring while some key is
open.  `opened` records whether a key has been opened so far. -/
def wf_head (opened : Bool) : List String → Bool
  | [] => true
  | l :: rest =>
    if head_opener l then wf_head true rest
    else if head_kv l then wf_head opened rest
    else if head_cont l && opened then wf_head true rest
    else false

/-- Metadata update/lookup interaction: setting `k` makes it present, and
leaves every other key's entry unchanged. -/
theorem dict_get_set (md : List (String × List String)) (k k' : String)
    (v : List String) :
    dict_get (dict_set md k v) k'
      = if k' = k then some v else dict_get md k' := by
  induction md with
  | nil =>
    simp only [dict_set, dict_get]
    by_cases h : (k == k') = true
    · rw [if_pos h, if_pos (beq_iff_eq.mp h).symm]
    · rw [if_neg h, if_neg (fun he => h (beq_iff_eq.mpr he.symm))]
  | cons p md ih =>
    simp only [dict_set]
    by_cases hpk : (p.1 == k) = true
    · rw [if_pos hpk]
      simp only [dict_get]
      by_cases hpk' : (p.1 == k') = true
      · rw [if_pos hpk',
          if_pos ((beq_iff_eq.mp hpk').symm.trans (beq_iff_eq.mp hpk))]
      · rw [if_neg hpk', if_neg (fun he => hpk'
          (beq_iff_eq.mpr ((beq_iff_eq.mp hpk).trans he.symm))), if_neg hpk']
    · rw [if_neg hpk]
      simp only [dict_get]
      by_cases hpk' : (p.1 == k') = true
      · rw [if_pos hpk', if_pos hpk',
          if_neg (fun he => hpk
            (beq_iff_eq.mpr ((beq_iff_eq.mp hpk').trans he)))]
      · rw [if_neg hpk', if_neg hpk']
        exact ih

/-- The head-parser loop succeeds on a well-formed remainder whenever the
open key, if any, is present in the metadata dict. -/
theorem parse_head_aux_ok (lines : List String) :
    ∀ (md : List (String × List String)) (ok : Option String),
    (∀ k, ok = some k → (dict_get md k).isSome = true) →
    wf_head ok.isSome lines = true →
    ∃ md', parse_head_aux md ok lines = Except.ok md' := by
  induction lines with
  | nil => exact fun md ok _ _ => ⟨md, rfl⟩
  | cons l rest ih =>
    intro md ok hinv hwf
    by_cases hop : head_opener l = true
    · unfold head_opener at hop
      cases hh : (pyRStrip l).data.head? with
      | none => rw [hh] at hop; cases hop
      | some c0 =>
        rw [hh] at hop
        obtain ⟨hns, hlast⟩ := (Bool.and_eq_true _ _).mp hop
        have hns' : pyIsSpaceChar c0 = false := by simpa using hns
        unfold wf_head at hwf
        rw [if_pos (by unfold head_opener; rw [hh]; exact hop)] at hwf
        simp only [parse_head_aux, hh]
        rw [if_neg (by rw [hns']; exact Bool.false_ne_true),
          if_pos hlast]
        exact ih _ (some _)
          (fun k hk => by
            cases hk
            rw [dict_get_set, if_pos rfl]
            rfl)
          hwf
    · by_cases hkv : head_kv l = true
      · unfold head_kv at hkv
        cases hh : (pyRStrip l).data.head? with
        | none => rw [hh] at hkv; cases hkv
        | some c0 =>
          rw [hh] at hkv
          obtain ⟨hns2, hfind⟩ := (Bool.and_eq_true _ _).mp hkv
          obtain ⟨hns, hnlast⟩ := (Bool.and_eq_true _ _).mp hns2
          have hns' : pyIsSpaceChar c0 = false := by simpa using hns
          have hnlast' : ((pyRStrip l).data.getLast? == some ':') = false := by
            simpa using hnlast
          unfold wf_head at hwf
          rw [if_neg (fun hc => hop hc), if_pos (by
            unfold head_kv; rw [hh]; exact hkv)] at hwf
          cases hfi : (pyRStrip l).data.findIdx? (fun x => x == ':') with
          | none => rw [hfi] at hfind; cases hfind
          | some i =>
            simp only [parse_head_aux, hh]
            rw [if_neg (by rw [hns']; exact Bool.false_ne_true),
              if_neg (by rw [hnlast']; exact Bool.false_ne_true)]
            simp only [pySplitFirstChar, hfi]
            exact ih _ ok
              (fun k hk => by
                rw [dict_get_set]
                by_cases hke : k = pyLower (pyStrip (pyTake (pyRStrip l) i))
                · rw [if_pos hke]; rfl
                · rw [if_neg hke]; exact hinv k hk)
              hwf
      · unfold wf_head at hwf
        rw [if_neg (fun hc => hop hc), if_neg (fun hc => hkv hc)] at hwf
        split at hwf
        · rename_i hcontop
          obtain ⟨hcont, hopened⟩ := (Bool.and_eq_true _ _).mp hcontop
          cases ok with
          | none => cases hopened
          | some k =>
            have hget := hinv k rfl
            cases hvs : dict_get md k with
            | none => rw [hvs] at hget; cases hget
            | some vs =>
              unfold head_cont at hcont
              cases hh : (pyRStrip l).data.head? with
              | none => rw [hh] at hcont; cases hcont
              | some c0 =>
                rw [hh] at hcont
                simp only [parse_head_aux, hh]
                rw [if_pos hcont]
                simp only [hvs]
                exact ih _ (some k)
                  (fun k' hk' => by
                    cases hk'
                    rw [dict_get_set, if_pos rfl]
                    rfl)
                  hwf
        · cases hwf

/-! Lemmas about the inline-style scan: the `stars` accumulator only ever
holds `*` characters, and a trailing run of `*` characters never changes
the produced chunks. -/

/-- One scan step keeps the `stars` accumulator all-stars. -/
theorem chunkStep_stars_inv (s : ChunkState) (c : Char)
    (h : s.stars.data.all (fun x => x == '*') = true) :
    (chunkStep s c).stars.data.all (fun x => x == '*') = true := by
  have hflush :
      ((if s.stars ≠ "" ∧ s.stars.data.head? ≠ some c
        then flushStars s else s).stars.data.all (fun x => x == '*'))
        = true := by
    split
    · simp [flushStars]
    · exact h
  have hpush : ∀ s' : ChunkState,
      s'.stars.data.all (fun x => x == '*') = true →
      (s'.stars.push '*').data.all (fun x => x == '*') = true := by
    intro s' h'
    rw [String.data_push]
    simp only [List.all_append, h', List.all_cons, List.all_nil]
    simp
  simp only [chunkStep]
  split
  · exact h
  · split
    · exact hflush
    · split
      · exact hflush
      · split
        · rename_i hc
          subst hc
          exact hpush _ hflush
        · exact hflush

/-- The whole scan keeps the `stars` accumulator all-stars. -/
theorem scan_stars_inv (cs : List Char) (s : ChunkState)
    (h : s.stars.data.all (fun x => x == '*') = true) :
    (cs.foldl chunkStep s).stars.data.all (fun x => x == '*') = true := by
  induction cs generalizing s with
  | nil => exact h
  | cons c cs ih =>
    rw [List.foldl_cons]
    exact ih _ (chunkStep_stars_inv s c h)

/-- Scanning a `*` from a non-escaped, all-stars state only extends the
star run. -/
theorem chunkStep_star (s : ChunkState)
    (hesc : s.is_escaped = false)
    (h : s.stars.data.all (fun x => x == '*') = true) :
    chunkStep s '*' = { s with stars := s.stars.push '*' } := by
  have hnoflush : ¬ (s.stars ≠ "" ∧ s.stars.data.head? ≠ some '*') := by
    rintro ⟨hne, hhead⟩
    cases hd : s.stars.data with
    | nil =>
      have h0 : s.stars = String.mk s.stars.data := rfl
      rw [hd] at h0
      exact hne (h0.trans (by rfl))
    | cons x xs =>
      have hx := h
      rw [hd] at hx
      simp only [List.all_cons, Bool.and_eq_true] at hx
      apply hhead
      rw [hd]
      simp only [List.head?, Option.some.injEq]
      exact beq_iff_eq.mp hx.1
  simp only [chunkStep, hesc, Bool.false_eq_true, if_false, hnoflush]
  simp

/-- A run of `*` characters folded from a non-escaped, all-stars state
changes neither the finished chunks nor the current chunk: an open star
run never resolves to a style toggle. -/
theorem trailing_stars (n : Nat) (s : ChunkState)
    (hesc : s.is_escaped = false)
    (h : s.stars.data.all (fun x => x == '*') = true) :
    ((List.replicate n '*').foldl chunkStep s).done = s.done
      ∧ ((List.replicate n '*').foldl chunkStep s).chunk = s.chunk := by
  induction n generalizing s with
  | zero => exact ⟨rfl, rfl⟩
  | succ n ih =>
    rw [List.replicate_succ, List.foldl_cons, chunkStep_star s hesc h]
    exact ih { s with stars := s.stars.push '*' } hesc
      (by rw [String.data_push]
          simp only [List.all_append, h, List.all_cons, List.all_nil]
          simp)

/-! ## Theorems for the claims -/

/-- C1: the spec promises that parsing never raises, in particular not on
whitespace-only input nor on a body line consisting of a bare
scene-heading token.  The code violates both: whitespace-only input
strips to the empty string and `contents.splitlines()[0]` raises
`IndexError`, and the single body line `"INT."` reaches
`line.split()[1]` in the natural-scene-heading branch, which raises
`IndexError` for a one-token line. -/
theorem C1_parse_raises_on_bad_input :
    fountain_init " " = Except.error PyErr.indexError
      ∧ fountain_init "INT." = Except.error PyErr.indexError := by
  exact ⟨rfl, rfl⟩

/-- C2 counterexample: parsing the body `"/* this\nspans lines */"` yields
one Boneyard element, but its text is not the claimed
`"this\nspans lines"` — the text after the `/*` opener is discarded (an
empty string is accumulated in its place). -/
theorem C2_counterexample :
    (fountain_init "/* this\nspans lines */").toOption.map boneyard_texts
      ≠ some ["this\nspans lines"] := by
  decide

/-- C2 (amended): parsing the input `"/* this\nspans lines */"` emits
exactly one element, a Boneyard, whose text is `"\nspans lines"`: the text
after the `/*` opener on the first line is dropped and replaced by an
empty accumulated line, and the accumulated lines are joined with a
newline. -/
theorem C2_boneyard_text :
    (fountain_init "/* this\nspans lines */").toOption.map
        (fun d => d.elements.map (fun e => (e.element_type, e.element_text)))
      = some [(Element.BONEYARD, "\nspans lines")] := by
  decide

/-- C4 counterexample: for the body line `"#A# title"` the claim predicts
`section_depth = 1` and text `"A# title"`, but the code counts every `#`
of the first whitespace-delimited token (`"#A#".count('#') = 2`) and
takes the remainder after that many characters, giving depth `2` and
text `"# title"`. -/
theorem C4_counterexample :
    (fountain_init "#A# title").toOption.map
        (fun d => d.elements.map (fun e => (e.section_depth, e.element_text)))
      ≠ some [(1, "A# title")] := by
  decide

/-- C4 (amended): whenever a body line reaches the section-heading branch
(the trimmed line starts with `#` and no earlier branch fired), the step
appends exactly one element, a SectionHeading whose `section_depth` is the
count of ALL `#` characters in the line's first whitespace-delimited token
(not only the leading ones) and whose text is the remainder of the
trimmed line after its first `depth` characters, trimmed. -/
theorem C4_section_heading_depth
    (sb : List String) (st : BodyState) (n : Nat)
    (rawline line fs tok : String) (ws : List String)
    (hline : pyLStrip rawline = line) (hfs : pyStrip line = fs)
    (h1 : cond_blank st line = false)
    (h2 : cond_boneyard_open line = false)
    (h3 : cond_boneyard_close line = false)
    (h4 : st.is_comment_block = false)
    (h5 : cond_page_break line = false)
    (h6 : cond_synopsis fs = false)
    (h7 : cond_comment st fs = false)
    (h8 : cond_section fs = true)
    (hsplit : pySplitWS fs = tok :: ws) :
    ∃ st', parse_body_step sb st n rawline = Except.ok st'
      ∧ ∃ e, st'.elements = st.elements ++ [e]
        ∧ e.element_type = Element.SECTION_HEADING
        ∧ e.section_depth = tok.data.count '#'
        ∧ e.element_text = pyStrip (pyDropChars fs (tok.data.count '#')) := by
  subst hline; subst hfs
  unfold parse_body_step branch_section
  simp only [h1, h2, h3, h4, h5, h6, h7, h8, hsplit, Bool.false_eq_true,
    if_false, if_true, append_elem]
  exact ⟨_, rfl, _, rfl, rfl, rfl, rfl⟩

/-- Witness for C4's amended theorem: the line `"# Act"` from the initial
state yields a SectionHeading of depth 1 with text `"Act"`. -/
theorem C4_section_heading_depth_witness :
    ∃ st', parse_body_step ["# Act"] body_init 0 "# Act" = Except.ok st'
      ∧ ∃ e, st'.elements = body_init.elements ++ [e]
        ∧ e.element_type = Element.SECTION_HEADING
        ∧ e.section_depth = List.count '#' (String.data "#")
        ∧ e.element_text = pyStrip (pyDropChars "# Act" (List.count '#' (String.data "#"))) :=
  C4_section_heading_depth ["# Act"] body_init 0 "# Act" "# Act" "# Act" "#"
    ["Act"] (by decide) (by decide) (by decide) (by decide) (by decide)
    (by decide) (by decide) (by decide) (by decide) (by decide) (by decide)

/-- C3 counterexample: for the input `"A\nB"` the line `"B"` is folded
into the previous Action element by the default continuation rule, which
updates only `element_text`; the element's `original_content` stays
`"A"`, so the `original_content` round-trip does not reproduce the body. -/
theorem C3_counterexample : roundtrip_ok "A\nB" = false := by
  decide

/-- C3 (amended): a body line classified by the default continuation rule
(no blank line intervened and an element exists; no earlier branch fired)
is appended only to the previous element's `element_text`; every
element's `original_content` is left unchanged, so the folded line is
represented in no element's `original_content` and the round-trip
reproduces only the lines that were not folded by this rule. -/
theorem C3_default_fold_drops_line
    (sb : List String) (st : BodyState) (n : Nat) (rawline line fs : String)
    (hline : pyLStrip rawline = line) (hfs : pyStrip line = fs)
    (h1 : cond_blank st line = false)
    (h2 : cond_boneyard_open line = false)
    (h3 : cond_boneyard_close line = false)
    (h4 : st.is_comment_block = false)
    (h5 : cond_page_break line = false)
    (h6 : cond_synopsis fs = false)
    (h7 : cond_comment st fs = false)
    (h8 : cond_section fs = false)
    (h9 : cond_forced_scene line = false)
    (h10 : cond_forced_action line = false)
    (h11 : cond_scene_tok line = false)
    (h12 : cond_tr_to fs = false)
    (h13 : cond_tr_common fs = false)
    (h14 : cond_angle fs = false)
    (h15 : cond_character sb st n line fs = false)
    (hdb : st.is_inside_dialogue_block = false)
    (hnl : st.newlines_before = 0)
    (hne : st.elements ≠ []) :
    ∃ st', parse_body_step sb st n rawline = Except.ok st'
      ∧ st'.elements.map (fun e => e.original_content)
          = st.elements.map (fun e => e.original_content) := by
  subst hline; subst hfs
  unfold parse_body_step branch_default
  simp only [h1, h2, h3, h4, h5, h6, h7, h8, h9, h10, h11, h12, h13, h14,
    h15, hdb, hnl, Bool.false_eq_true, if_false, beq_self_eq_true, true_and]
  rw [if_pos (List.length_pos.mpr hne)]
  refine ⟨_, rfl, ?_⟩
  exact modify_last_map_original_content
    (fun e => { e with
      element_text := e.element_text ++ "\n" ++ pyStrip (pyLStrip rawline) })
    (fun e => rfl) st.elements

/-- A parser state holding one Action element, used as a witness input. -/
def st_one_action : BodyState :=
  { elements := [{ element_type := Element.ACTION, element_text := "A",
                   original_content := "A" }],
    scenes := [{ header_text := "", element_ids := [0] }],
    is_comment_block := false, is_inside_dialogue_block := false,
    newlines_before := 0, comment_text := [] }

/-- Witness for C3's amended theorem: folding the line `"B"` into a
previous Action leaves the `original_content` sequence untouched. -/
theorem C3_default_fold_drops_line_witness :
    ∃ st', parse_body_step ["B"] st_one_action 0 "B" = Except.ok st'
      ∧ st'.elements.map (fun e => e.original_content)
          = st_one_action.elements.map (fun e => e.original_content) :=
  C3_default_fold_drops_line ["B"] st_one_action 0 "B" "B" "B" (by decide)
    (by decide) (by decide) (by decide) (by decide) (by decide) (by decide)
    (by decide) (by decide) (by decide) (by decide) (by decide) (by decide)
    (by decide) (by decide) (by decide) (by decide) (by decide) (by decide)
    (by decide)

/-- C5: when a line is classified as a Character cue and its trimmed text
ends in `^`, the step flips `is_dual_dialogue` on the nearest preceding
Character element (`ch`, with no Character after it), appends a new
Character element with `is_dual_dialogue = true`, and leaves every other
element — in particular every other Character element and its
`is_dual_dialogue` flag — unchanged (`pre` and `post` appear verbatim in
the result). -/
theorem C5_dual_dialogue_marks_both
    (sb : List String) (st : BodyState) (n : Nat) (rawline line fs : String)
    (pre post : List FountainElement) (ch : FountainElement)
    (hline : pyLStrip rawline = line) (hfs : pyStrip line = fs)
    (h1 : cond_blank st line = false)
    (h2 : cond_boneyard_open line = false)
    (h3 : cond_boneyard_close line = false)
    (h4 : st.is_comment_block = false)
    (h5 : cond_page_break line = false)
    (h6 : cond_synopsis fs = false)
    (h7 : cond_comment st fs = false)
    (h8 : cond_section fs = false)
    (h9 : cond_forced_scene line = false)
    (h10 : cond_forced_action line = false)
    (h11 : cond_scene_tok line = false)
    (h12 : cond_tr_to fs = false)
    (h13 : cond_tr_common fs = false)
    (h14 : cond_angle fs = false)
    (hchar : cond_character sb st n line fs = true)
    (hcaret : fs.data.getLast? = some '^')
    (hdec : st.elements = pre ++ ch :: post)
    (hch : ch.element_type = Element.CHARACTER)
    (hpost : ∀ e ∈ post, ¬ e.element_type = Element.CHARACTER) :
    ∃ st' e, parse_body_step sb st n rawline = Except.ok st'
      ∧ st'.elements
          = (pre ++ ({ ch with is_dual_dialogue := true } :: post)) ++ [e]
      ∧ e.element_type = Element.CHARACTER
      ∧ e.is_dual_dialogue = true
      ∧ st'.is_inside_dialogue_block = true := by
  subst hline; subst hfs
  unfold parse_body_step branch_character
  simp only [h1, h2, h3, h4, h5, h6, h7, h8, h9, h10, h11, h12, h13, h14,
    hchar, hcaret, beq_self_eq_true, if_true, Bool.false_eq_true, if_false,
    append_elem]
  refine ⟨_,
    { element_type := Element.CHARACTER,
      element_text :=
        pyStrip (pyRStripSet ['^'] (pyLStripSet ['@'] (pyStrip (pyLStrip rawline)))),
      is_dual_dialogue := true, original_line := n,
      original_content := pyLStrip rawline },
    rfl, ?_, rfl, rfl, rfl⟩
  show mark_last_character_dual st.elements ++ [_] = _
  rw [hdec, mark_last_character_dual_eq pre ch post hch hpost]

/-- A parser state after an `@ALICE` cue and its dialogue, used as a
witness input for the dual-dialogue step. -/
def st_after_cue : BodyState :=
  { elements := [{ element_type := Element.CHARACTER,
                   element_text := "ALICE", original_content := "@ALICE" },
                 { element_type := Element.DIALOGUE,
                   element_text := "Hello.", original_content := "Hello." },
                 { element_type := Element.EMPTY }],
    scenes := [{ header_text := "", element_ids := [0, 1, 2] }],
    is_comment_block := false, is_inside_dialogue_block := false,
    newlines_before := 1, comment_text := [] }

/-- Witness for C5: the cue line `"@BOB ^"` (with a nonempty next line)
marks the earlier ALICE Character element and the new BOB element as dual
dialogue, leaving the other elements unchanged. -/
theorem C5_dual_dialogue_marks_both_witness :
    ∃ st' e, parse_body_step ["@BOB ^", "Hi."] st_after_cue 0 "@BOB ^"
        = Except.ok st'
      ∧ st'.elements
          = ([] ++ ({ ({ element_type := Element.CHARACTER,
                         element_text := "ALICE",
                         original_content := "@ALICE" } : FountainElement) with
                      is_dual_dialogue := true }
              :: [{ element_type := Element.DIALOGUE,
                    element_text := "Hello.", original_content := "Hello." },
                  { element_type := Element.EMPTY }])) ++ [e]
      ∧ e.element_type = Element.CHARACTER
      ∧ e.is_dual_dialogue = true
      ∧ st'.is_inside_dialogue_block = true :=
  C5_dual_dialogue_marks_both ["@BOB ^", "Hi."] st_after_cue 0 "@BOB ^"
    "@BOB ^" "@BOB ^" []
    [{ element_type := Element.DIALOGUE, element_text := "Hello.",
       original_content := "Hello." },
     { element_type := Element.EMPTY }]
    { element_type := Element.CHARACTER, element_text := "ALICE",
      original_content := "@ALICE" }
    (by decide) (by decide) (by decide) (by decide) (by decide) (by decide)
    (by decide) (by decide) (by decide) (by decide) (by decide) (by decide)
    (by decide) (by decide) (by decide) (by decide) (by decide) (by decide)
    (by decide) (by decide) (by decide)

/-- C7: a continuation line occurring before any key has been opened
makes `_parse_head` signal an undefined-key error (`self.metadata[None]`
raises `KeyError`) instead of silently dropping or storing the data; and
on a well-formed head block no error is signalled. -/
theorem C7_head_undefined_key :
    (∀ (md : List (String × List String)) (pre : List String) (c : String)
        (rest : List String),
        (∀ l ∈ pre, head_kv l = true) → head_cont c = true →
        parse_head_aux md none (pre ++ c :: rest)
          = Except.error PyErr.keyError)
    ∧ (∀ lines : List String, wf_head false lines = true →
        ∃ md, parse_head_aux [] none lines = Except.ok md) := by
  constructor
  · intro md pre
    induction pre generalizing md with
    | nil =>
      intro c rest _ hcont
      unfold head_cont at hcont
      cases hh : (pyRStrip c).data.head? with
      | none => rw [hh] at hcont; cases hcont
      | some c0 =>
        rw [hh] at hcont
        simp only [List.nil_append, parse_head_aux, hh]
        rw [if_pos hcont]
        rfl
    | cons l pre ih =>
      intro c rest hkv hcont
      have hkvl : head_kv l = true := hkv l (by simp)
      unfold head_kv at hkvl
      cases hh : (pyRStrip l).data.head? with
      | none => rw [hh] at hkvl; cases hkvl
      | some c0 =>
        rw [hh] at hkvl
        obtain ⟨hns2, hfind⟩ := (Bool.and_eq_true _ _).mp hkvl
        obtain ⟨hns, hnlast⟩ := (Bool.and_eq_true _ _).mp hns2
        have hns' : pyIsSpaceChar c0 = false := by simpa using hns
        have hnlast' : ((pyRStrip l).data.getLast? == some ':') = false := by
          simpa using hnlast
        cases hfi : (pyRStrip l).data.findIdx? (fun x => x == ':') with
        | none => rw [hfi] at hfind; cases hfind
        | some i =>
          simp only [List.cons_append, parse_head_aux, hh]
          rw [if_neg (by rw [hns']; exact Bool.false_ne_true),
            if_neg (by rw [hnlast']; exact Bool.false_ne_true)]
          simp only [pySplitFirstChar, hfi]
          exact ih _ c rest (fun x hx => hkv x (by simp [hx])) hcont
  · intro lines hwf
    exact parse_head_aux_ok lines [] none (fun k hk => by cases hk) hwf

/-- Witness for C7: the head block `["A: b", "  two"]` (a continuation
line with no open key) raises the undefined-key error, while the
well-formed block `["Title:", "  x", "K: v"]` parses without error. -/
theorem C7_head_undefined_key_witness :
    parse_head_aux [] none (["A: b"] ++ "  two" :: [])
        = Except.error PyErr.keyError
      ∧ ∃ md, parse_head_aux [] none ["Title:", "  x", "K: v"]
          = Except.ok md :=
  ⟨C7_head_undefined_key.1 [] ["A: b"] "  two" [] (by decide) (by decide),
   C7_head_undefined_key.2 ["Title:", "  x", "K: v"] (by decide)⟩

/-- C8: the metadata example input splits at the first blank-line
boundary; the head yields lowercased, trimmed keys with single-element
value lists, and the body yields exactly one scene containing exactly one
SceneHeading element (the element of arena index 0). -/
theorem C8_metadata_example :
    (fountain_init "Title: My Play\nAuthor: A. Writer\n\nINT. HOUSE - DAY\n").toOption.map
        (fun d => (d.metadata, d.elements.map (fun e => e.element_type),
                   d.scenes.map (fun sc => sc.element_ids)))
      = some ([("title", ["My Play"]), ("author", ["A. Writer"])],
              [Element.SCENE_HEADING], [[0]]) := by
  decide

/-! Scene-effect lemmas, one per non-heading branch: each branch either
appends to the current (last) scene or leaves the scenes alone, so the
scenes other than the last and the scene count are unchanged. -/

/-- A state whose scenes are an `update_last_scene` of the old scenes
keeps all scenes but the last, and the scene count. -/
theorem sp_scenes_eq (st st2 : BodyState) (k : Nat)
    (h : st2.scenes = update_last_scene st.scenes k) :
    st2.scenes.dropLast = st.scenes.dropLast
      ∧ st2.scenes.length = st.scenes.length := by
  rw [h]; exact update_last_scene_dropLast st.scenes k

/-- A state with unchanged scenes trivially preserves both. -/
theorem sp_scenes_same (st st2 : BodyState) (h : st2.scenes = st.scenes) :
    st2.scenes.dropLast = st.scenes.dropLast
      ∧ st2.scenes.length = st.scenes.length := by
  rw [h]; exact ⟨rfl, rfl⟩

theorem sp_branch_blank (st : BodyState) :
    (branch_blank st).scenes.dropLast = st.scenes.dropLast
      ∧ (branch_blank st).scenes.length = st.scenes.length :=
  sp_scenes_eq st _ _ rfl

theorem sp_branch_boneyard_open (st : BodyState) (n : Nat) (line : String) :
    (branch_boneyard_open st n line).scenes.dropLast = st.scenes.dropLast
      ∧ (branch_boneyard_open st n line).scenes.length
          = st.scenes.length := by
  simp only [branch_boneyard_open]
  split
  · exact sp_scenes_eq st _ _ rfl
  · exact sp_scenes_same st _ rfl

theorem sp_branch_boneyard_close (st : BodyState) (n : Nat) (line : String) :
    (branch_boneyard_close st n line).scenes.dropLast = st.scenes.dropLast
      ∧ (branch_boneyard_close st n line).scenes.length
          = st.scenes.length :=
  sp_scenes_eq st _ _ rfl

theorem sp_branch_comment_acc (st : BodyState) (line : String) :
    (branch_comment_acc st line).scenes.dropLast = st.scenes.dropLast
      ∧ (branch_comment_acc st line).scenes.length = st.scenes.length :=
  sp_scenes_same st _ rfl

theorem sp_branch_page_break (st : BodyState) (n : Nat) (line : String) :
    (branch_page_break st n line).scenes.dropLast = st.scenes.dropLast
      ∧ (branch_page_break st n line).scenes.length = st.scenes.length :=
  sp_scenes_eq st _ _ rfl

theorem sp_branch_synopsis (st : BodyState) (n : Nat) (line fs : String) :
    (branch_synopsis st n line fs).scenes.dropLast = st.scenes.dropLast
      ∧ (branch_synopsis st n line fs).scenes.length = st.scenes.length :=
  sp_scenes_eq st _ _ rfl

theorem sp_branch_comment (st : BodyState) (n : Nat) (line fs : String) :
    (branch_comment st n line fs).scenes.dropLast = st.scenes.dropLast
      ∧ (branch_comment st n line fs).scenes.length = st.scenes.length :=
  sp_scenes_eq st _ _ rfl

theorem sp_branch_section (st : BodyState) (n : Nat) (line fs : String)
    (st2 : BodyState) (h : branch_section st n line fs = Except.ok st2) :
    st2.scenes.dropLast = st.scenes.dropLast
      ∧ st2.scenes.length = st.scenes.length := by
  unfold branch_section at h
  split at h
  · cases h
  · cases h; exact sp_scenes_eq st _ _ rfl

theorem sp_branch_forced_action (st : BodyState) (n : Nat)
    (line fs : String) :
    (branch_forced_action st n line fs).scenes.dropLast
        = st.scenes.dropLast
      ∧ (branch_forced_action st n line fs).scenes.length
          = st.scenes.length :=
  sp_scenes_eq st _ _ rfl

theorem sp_branch_transition (st : BodyState) (n : Nat) (line fs : String) :
    (branch_transition st n line fs).scenes.dropLast = st.scenes.dropLast
      ∧ (branch_transition st n line fs).scenes.length
          = st.scenes.length :=
  sp_scenes_eq st _ _ rfl

theorem sp_branch_angle (st : BodyState) (n : Nat) (line fs : String) :
    (branch_angle st n line fs).scenes.dropLast = st.scenes.dropLast
      ∧ (branch_angle st n line fs).scenes.length = st.scenes.length := by
  unfold branch_angle
  split
  · exact sp_scenes_eq st _ _ rfl
  · exact sp_scenes_eq st _ _ rfl

theorem sp_branch_character (st : BodyState) (n : Nat) (line fs : String) :
    (branch_character st n line fs).scenes.dropLast = st.scenes.dropLast
      ∧ (branch_character st n line fs).scenes.length
          = st.scenes.length := by
  unfold branch_character
  split
  · exact sp_scenes_eq st _ _ rfl
  · exact sp_scenes_eq st _ _ rfl

theorem sp_branch_dialogue (st : BodyState) (n : Nat) (line fs : String)
    (st2 : BodyState) (h : branch_dialogue st n line fs = Except.ok st2) :
    st2.scenes.dropLast = st.scenes.dropLast
      ∧ st2.scenes.length = st.scenes.length := by
  unfold branch_dialogue at h
  split at h
  · cases h; exact sp_scenes_eq st _ _ rfl
  · split at h
    · cases h
    · split at h
      · cases h; exact sp_scenes_same st _ rfl
      · cases h; exact sp_scenes_eq st _ _ rfl

theorem sp_branch_default (st : BodyState) (n : Nat) (line fs : String) :
    (branch_default st n line fs).scenes.dropLast = st.scenes.dropLast
      ∧ (branch_default st n line fs).scenes.length = st.scenes.length := by
  unfold branch_default
  split
  · exact sp_scenes_same st _ rfl
  · exact sp_scenes_eq st _ _ rfl

/-- C6: scene management.  (1) `_add_scene` removes the current (last)
scene if and only if every element in it is empty, before appending the
new scene, whose element list is exactly the heading; (2) the forced-dot
heading branch and (3) the natural heading branch append the heading
element to the flat list and open the new scene through `_add_scene`
(the heading's arena index goes to both views); (4) every step that is
not a scene-heading step leaves the number of scenes and all scenes but
the current one unchanged — scenes are discarded only at the moment a
new heading opens, so a trailing empty scene at end of input is never
discarded. -/
theorem C6_scene_management :
    (∀ (arena : List FountainElement) (scs : List FountainScene)
        (last : FountainScene) (hdr : String) (idx : Nat),
        scs.getLast? = some last →
        (scene_is_empty arena last = true →
          add_scene arena scs hdr idx
            = scs.dropLast ++ [{ mkScene hdr with element_ids := [idx] }])
        ∧ (scene_is_empty arena last = false →
          add_scene arena scs hdr idx
            = scs ++ [{ mkScene hdr with element_ids := [idx] }]))
    ∧ (∀ (sb : List String) (st : BodyState) (n : Nat)
        (rawline line fs : String),
        pyLStrip rawline = line → pyStrip line = fs →
        cond_blank st line = false → cond_boneyard_open line = false →
        cond_boneyard_close line = false → st.is_comment_block = false →
        cond_page_break line = false → cond_synopsis fs = false →
        cond_comment st fs = false → cond_section fs = false →
        cond_forced_scene line = true →
        ∃ st' e, parse_body_step sb st n rawline = Except.ok st'
          ∧ st'.elements = st.elements ++ [e]
          ∧ e.element_type = Element.SCENE_HEADING
          ∧ st'.scenes = add_scene (st.elements ++ [e]) st.scenes
              e.element_text st.elements.length)
    ∧ (∀ (sb : List String) (st : BodyState) (n : Nat)
        (rawline line fs w0 w1 : String) (ws : List String),
        pyLStrip rawline = line → pyStrip line = fs →
        cond_blank st line = false → cond_boneyard_open line = false →
        cond_boneyard_close line = false → st.is_comment_block = false →
        cond_page_break line = false → cond_synopsis fs = false →
        cond_comment st fs = false → cond_section fs = false →
        cond_forced_scene line = false → cond_forced_action line = false →
        cond_scene_tok line = true → pySplitWS line = w0 :: w1 :: ws →
        ∃ st' e, parse_body_step sb st n rawline = Except.ok st'
          ∧ st'.elements = st.elements ++ [e]
          ∧ e.element_type = Element.SCENE_HEADING
          ∧ st'.scenes = add_scene (st.elements ++ [e]) st.scenes
              e.element_text st.elements.length)
    ∧ (∀ (sb : List String) (st : BodyState) (n : Nat) (rawline : String)
        (st' : BodyState),
        cond_forced_scene (pyLStrip rawline) = false →
        cond_scene_tok (pyLStrip rawline) = false →
        parse_body_step sb st n rawline = Except.ok st' →
        st'.scenes.dropLast = st.scenes.dropLast
          ∧ st'.scenes.length = st.scenes.length) := by
  refine ⟨?_, ?_, ?_, ?_⟩
  · intro arena scs last hdr idx hget
    constructor <;> intro h <;> simp [add_scene, hget, h]
  · intro sb st n rawline line fs hline hfs h1 h2 h3 h4 h5 h6 h7 h8 h9
    subst hline; subst hfs
    unfold parse_body_step branch_forced_scene
    simp only [h1, h2, h3, h4, h5, h6, h7, h8, h9, Bool.false_eq_true,
      if_false, if_true]
    split
    · exact ⟨_, _, rfl, rfl, rfl, rfl⟩
    · exact ⟨_, _, rfl, rfl, rfl, rfl⟩
  · intro sb st n rawline line fs w0 w1 ws hline hfs h1 h2 h3 h4 h5 h6 h7
      h8 h9 h10 h11 hsplit
    subst hline; subst hfs
    unfold parse_body_step branch_scene_tok
    simp only [h1, h2, h3, h4, h5, h6, h7, h8, h9, h10, h11, hsplit,
      Bool.false_eq_true, if_false, if_true]
    split
    · exact ⟨_, _, rfl, rfl, rfl, rfl⟩
    · exact ⟨_, _, rfl, rfl, rfl, rfl⟩
  · intro sb st n rawline st' h9f h11f hok
    delta parse_body_step at hok
    by_cases c1 : cond_blank st (pyLStrip rawline) = true
    · rw [if_pos c1] at hok; cases hok; exact sp_branch_blank st
    rw [if_neg c1] at hok
    by_cases c2 : cond_boneyard_open (pyLStrip rawline) = true
    · rw [if_pos c2] at hok; cases hok; exact sp_branch_boneyard_open st n _
    rw [if_neg c2] at hok
    by_cases c3 : cond_boneyard_close (pyLStrip rawline) = true
    · rw [if_pos c3] at hok; cases hok
      exact sp_branch_boneyard_close st n _
    rw [if_neg c3] at hok
    by_cases c4 : st.is_comment_block = true
    · rw [if_pos c4] at hok; cases hok; exact sp_branch_comment_acc st _
    rw [if_neg c4] at hok
    by_cases c5 : cond_page_break (pyLStrip rawline) = true
    · rw [if_pos c5] at hok; cases hok; exact sp_branch_page_break st n _
    rw [if_neg c5] at hok
    by_cases c6 : cond_synopsis (pyStrip (pyLStrip rawline)) = true
    · rw [if_pos c6] at hok; cases hok; exact sp_branch_synopsis st n _ _
    rw [if_neg c6] at hok
    by_cases c7 : cond_comment st (pyStrip (pyLStrip rawline)) = true
    · rw [if_pos c7] at hok; cases hok; exact sp_branch_comment st n _ _
    rw [if_neg c7] at hok
    by_cases c8 : cond_section (pyStrip (pyLStrip rawline)) = true
    · rw [if_pos c8] at hok; exact sp_branch_section st n _ _ st' hok
    rw [if_neg c8] at hok
    by_cases c9 : cond_forced_scene (pyLStrip rawline) = true
    · exact absurd c9 (by rw [h9f]; exact Bool.false_ne_true)
    rw [if_neg c9] at hok
    by_cases c10 : cond_forced_action (pyLStrip rawline) = true
    · rw [if_pos c10] at hok; cases hok
      exact sp_branch_forced_action st n _ _
    rw [if_neg c10] at hok
    by_cases c11 : cond_scene_tok (pyLStrip rawline) = true
    · exact absurd c11 (by rw [h11f]; exact Bool.false_ne_true)
    rw [if_neg c11] at hok
    by_cases c12 : cond_tr_to (pyStrip (pyLStrip rawline)) = true
    · rw [if_pos c12] at hok; cases hok; exact sp_branch_transition st n _ _
    rw [if_neg c12] at hok
    by_cases c13 : cond_tr_common (pyStrip (pyLStrip rawline)) = true
    · rw [if_pos c13] at hok; cases hok; exact sp_branch_transition st n _ _
    rw [if_neg c13] at hok
    by_cases c14 : cond_angle (pyStrip (pyLStrip rawline)) = true
    · rw [if_pos c14] at hok; cases hok; exact sp_branch_angle st n _ _
    rw [if_neg c14] at hok
    by_cases c15 :
        cond_character sb st n (pyLStrip rawline) (pyStrip (pyLStrip rawline))
          = true
    · rw [if_pos c15] at hok; cases hok; exact sp_branch_character st n _ _
    rw [if_neg c15] at hok
    by_cases c16 : st.is_inside_dialogue_block = true
    · rw [if_pos c16] at hok; exact sp_branch_dialogue st n _ _ st' hok
    rw [if_neg c16] at hok
    cases hok
    exact sp_branch_default st n _ _

/-- Witness for C6: a concrete instance of each part — the empty initial
scene is discarded when a heading opens and a non-empty one is kept; the
forced-dot line `".X"` and the natural line `"INT. A - B"` append their
heading to both views through `_add_scene`; and a blank-line step keeps
the scene count. -/
theorem C6_scene_management_witness :
    (add_scene [] [mkScene ""] "H" 0
        = [mkScene ""].dropLast ++ [{ mkScene "H" with element_ids := [0] }])
    ∧ (add_scene [{ element_type := Element.ACTION }]
          [{ header_text := "", element_ids := [0] }] "H" 1
        = [{ header_text := "", element_ids := [0] }]
            ++ [{ mkScene "H" with element_ids := [1] }])
    ∧ (∃ st' e, parse_body_step [".X"] body_init 0 ".X" = Except.ok st'
        ∧ st'.elements = body_init.elements ++ [e]
        ∧ e.element_type = Element.SCENE_HEADING
        ∧ st'.scenes = add_scene (body_init.elements ++ [e]) body_init.scenes
            e.element_text body_init.elements.length)
    ∧ (∃ st' e, parse_body_step ["INT. A - B"] body_init 0 "INT. A - B"
          = Except.ok st'
        ∧ st'.elements = body_init.elements ++ [e]
        ∧ e.element_type = Element.SCENE_HEADING
        ∧ st'.scenes = add_scene (body_init.elements ++ [e]) body_init.scenes
            e.element_text body_init.elements.length)
    ∧ ((branch_blank body_init).scenes.dropLast
          = body_init.scenes.dropLast
        ∧ (branch_blank body_init).scenes.length
            = body_init.scenes.length) :=
  ⟨(C6_scene_management.1 [] [mkScene ""] (mkScene "") "H" 0 (by decide)).1
      (by decide),
   (C6_scene_management.1 [{ element_type := Element.ACTION }]
      [{ header_text := "", element_ids := [0] }]
      { header_text := "", element_ids := [0] } "H" 1 (by decide)).2
      (by decide),
   C6_scene_management.2.1 [".X"] body_init 0 ".X" ".X" ".X" (by decide)
     (by decide) (by decide) (by decide) (by decide) (by decide) (by decide)
     (by decide) (by decide) (by decide) (by decide),
   C6_scene_management.2.2.1 ["INT. A - B"] body_init 0 "INT. A - B"
     "INT. A - B" "INT. A - B" "INT." "A" ["-", "B"] (by decide) (by decide)
     (by decide) (by decide) (by decide) (by decide) (by decide) (by decide)
     (by decide) (by decide) (by decide) (by decide) (by decide) (by decide),
   C6_scene_management.2.2.2 [""] body_init 0 "" (branch_blank body_init)
     (by decide) (by decide) rfl⟩

/-- The chunks of the spec's inline-style example text. -/
def example_chunks : List FountainChunk :=
  FountainElement.split_to_chunks
    { element_type := Element.ACTION, element_text := "**bold** and *italic*" }

/-- C9: splitting `"**bold** and *italic*"` yields chunks whose
concatenated text is `"bold and italic"`, with exactly one chunk flagged
bold-only and exactly one flagged italic-only; and for every element
text, appending a run of `*` characters leaves the produced chunks
unchanged whenever the scan of the original text does not end mid-escape
— an unterminated star run never resolves to a style toggle. -/
theorem C9_inline_styles :
    (String.join (example_chunks.map (fun ch => ch.text)) = "bold and italic"
      ∧ (example_chunks.filter
          (fun ch => ch.bold && !ch.italic && !ch.underline)).length = 1
      ∧ (example_chunks.filter
          (fun ch => !ch.bold && ch.italic && !ch.underline)).length = 1)
    ∧ (∀ (e : FountainElement) (n : Nat),
        (e.element_text.data.foldl chunkStep chunkInit).is_escaped = false →
        FountainElement.split_to_chunks
            { e with element_text :=
                e.element_text ++ String.mk (List.replicate n '*') }
          = FountainElement.split_to_chunks e) := by
  constructor
  · exact ⟨by decide, by decide, by decide⟩
  · intro e n hesc
    unfold FountainElement.split_to_chunks
    have hdata : ({ e with element_text :=
          e.element_text ++ String.mk (List.replicate n '*')
          } : FountainElement).element_text.data
        = e.element_text.data ++ List.replicate n '*' := by
      show (e.element_text ++ String.mk (List.replicate n '*')).data = _
      rfl
    rw [hdata, List.foldl_append]
    have ht := trailing_stars n (e.element_text.data.foldl chunkStep chunkInit)
      hesc (scan_stars_inv _ chunkInit rfl)
    simp only [ht.1, ht.2]

/-- Witness for C9's star-run clause: appending `"**"` to the text
`"ab"` produces the same chunks as `"ab"` alone. -/
theorem C9_inline_styles_witness :
    FountainElement.split_to_chunks
        { ({ element_type := Element.ACTION,
             element_text := "ab" } : FountainElement) with
          element_text := "ab" ++ String.mk (List.replicate 2 '*') }
      = FountainElement.split_to_chunks
          { element_type := Element.ACTION, element_text := "ab" } :=
  C9_inline_styles.2
    { element_type := Element.ACTION, element_text := "ab" } 2 (by decide)

/-- C10: after parsing `"T: x\n\n\nINT. A - B"`, the Empty element emitted
for the blank first body line stays in the flat element list (index 0)
while the scene that held it was discarded when the heading opened, so no
scene contains it: the scenes view is not a partition of the elements. -/
theorem C10_orphan_element :
    ∃ d, fountain_init "T: x\n\n\nINT. A - B" = Except.ok d
      ∧ d.elements.map (fun e => e.element_type)
          = [Element.EMPTY, Element.SCENE_HEADING]
      ∧ d.scenes.map (fun sc => sc.element_ids) = [[1]]
      ∧ ∃ i, i < d.elements.length ∧ ∀ sc ∈ d.scenes, i ∉ sc.element_ids := by
  refine ⟨{ metadata := [("t", ["x"])],
            elements :=
              [{ element_type := Element.EMPTY },
               { element_type := Element.SCENE_HEADING,
                 element_text := "INT. A - B",
                 scene_abbreviation := "INT.", original_line := 1,
                 original_content := "INT. A - B" }],
            scenes := [{ header_text := "INT. A - B", element_ids := [1] }] },
          rfl, by decide, by decide, 0, by decide, ?_⟩
  decide

end FountainPy
